import Mathlib

/-!
Shallow embedding of the chain-specification and genesis-storage layer of
`client/chain-spec/src/chain_spec.rs`.

Modelling conventions:
* Byte strings (`Vec<u8>`) are `List Nat`.
* Rust maps (`HashMap`/`BTreeMap`) are association lists; the Rust code only
  ever copies them entry-wise (iterator `map`/`collect`), which is mirrored by
  `List.map` on the association list.
* JSON values (`serde_json::Value`) are the inductive `Json` below; the JSON
  text layer (byte buffers holding JSON documents) is modelled by `Json` values
  directly, the lexical layer being out of scope.
* Fallible Rust functions returning `Result<_, String>` become
  `Except String _`; `Option`-like fallibility becomes `Option`.
* External typeclass capabilities (the `RuntimeGenesis` bound: `Deserialize`,
  `BuildStorage`) are passed as explicit function arguments (`degG`, `bsG`),
  and `serde` instances for the opaque generic parameter likewise.
-/

/-- Byte strings (`Vec<u8>` in the source). -/
abbrev Bytes := List Nat

/-- The JSON value model (`serde_json::Value`); objects are association lists
of fields in document order. -/
inductive Json where
  | null : Json
  | bool (b : Bool) : Json
  | num (n : Int) : Json
  | str (s : String) : Json
  | arr (xs : List Json) : Json
  | obj (fields : List (String × Json)) : Json
deriving Repr

/-- Field lookup on a JSON object (first occurrence); `none` on non-objects. -/
def Json.getField : Json → String → Option Json
  | .obj fs, k => fs.lookup k
  | _, _ => none

/-- Value of a single hexadecimal digit, upper or lower case. -/
def hexDigitVal (c : Char) : Option Nat :=
  if c.isDigit then some (c.toNat - 48)
  else if 97 ≤ c.toNat ∧ c.toNat ≤ 102 then some (c.toNat - 87)
  else if 65 ≤ c.toNat ∧ c.toNat ≤ 70 then some (c.toNat - 55)
  else none

/-- Decode pairs of hex digits into bytes; fails on a stray digit or a
non-hex character. -/
def hexPairsToBytes : List Char → Option Bytes
  | [] => some []
  | [_] => none
  | c1 :: c2 :: rest => do
    let h ← hexDigitVal c1
    let l ← hexDigitVal c2
    let bs ← hexPairsToBytes rest
    pure ((16 * h + l) :: bs)

/-- Hex decoding of a `0x`-prefixed string, as used by the `serde`
implementations of `StorageKey`/`StorageData` (external `impl_serde` crate). -/
def parseHexBytes (s : String) : Option Bytes :=
  match s.data with
  | '0' :: 'x' :: rest => hexPairsToBytes rest
  | _ => none

/-- Lower-case hex digit for a nibble. -/
def hexChar (n : Nat) : Char :=
  if n < 10 then Char.ofNat (48 + n) else Char.ofNat (87 + n)

/-- Hex encoding of one byte, two digits. -/
def byteToHex (b : Nat) : List Char :=
  [hexChar (b / 16), hexChar (b % 16)]

/-- Hex encoding of a byte string with the `0x` prefix, as emitted by the
`serde` implementations of `StorageKey`/`StorageData`. -/
def hexEncode (bs : Bytes) : String :=
  "0x" ++ String.mk (bs.map byteToHex).flatten

/-- A child-storage partition (`sp_core::storage::StorageChild`): its data and
the child-info metadata. `ChildInfo` is modelled by the parent key bytes it
wraps (`ChildInfo::new_default` stores exactly the given key bytes). -/
structure StorageChild where
  data : List (Bytes × Bytes)
  child_info : Bytes
deriving Repr, DecidableEq

/-- The canonical storage tree (`sp_core::storage::Storage`): top-level
key/value mapping plus default child partitions keyed by child-storage key. -/
structure Storage where
  top : List (Bytes × Bytes)
  children_default : List (Bytes × StorageChild)
deriving Repr, DecidableEq

/-- `ChildInfo::new_default(storage_key)`: default child-info derived from the
raw byte key (modelled as the key bytes themselves). -/
def ChildInfo.new_default (k : Bytes) : Bytes := k

/-- Raw storage content for the genesis block (`RawGenesis`). -/
structure RawGenesis where
  top : List (Bytes × Bytes)
  children_default : List (Bytes × List (Bytes × Bytes))
deriving Repr, DecidableEq

/-- The typed-vs-raw genesis union (`enum Genesis<G>`). -/
inductive Genesis (G : Type) where
  | Runtime (g : G) : Genesis G
  | Raw (r : RawGenesis) : Genesis G

/-- Chain type (`crate::ChainType`, outside the given slice; modelled from the
spec: enumerated Development/Local/Live plus a custom variant, with a
Live default when absent). -/
inductive ChainType where
  | Development : ChainType
  | Local : ChainType
  | Live : ChainType
  | Custom (s : String) : ChainType
deriving Repr, DecidableEq

/-- The serializable light-sync checkpoint (`SerializableLightSyncState`):
three opaque binary blobs plus the plain numeric block weight
(`BabeBlockWeight`, a `u32`). -/
structure SerializableLightSyncState where
  finalized_block_header : Bytes
  babe_epoch_changes : Bytes
  babe_finalized_block_weight : Nat
  grandpa_authority_set : Bytes
deriving Repr, DecidableEq

/-- Modelled from the spec: the external encodable/decodable capability
consumed for the light-sync fields (parity-scale-codec `Encode`/`Decode`).
`decode` reads from a cursor over the input slice: it consumes the prefix it
needs and returns the remaining bytes, failing on malformed or incomplete
input. SCALE encodings are prefix codes, so a valid encoding followed by any
extra bytes decodes to the encoded value with exactly those bytes left over
(`decode_encode`). -/
structure Codec (α : Type) where
  encode : α → Bytes
  decode : Bytes → Option (α × Bytes)
  decode_encode : ∀ (x : α) (r : Bytes), decode (encode x ++ r) = some (x, r)

/-- The typed light-sync checkpoint (`LightSyncState<Block>`), generic over
the three externally-defined consensus types (header, BABE epoch changes,
GRANDPA authority set). -/
structure LightSyncState (H EC AS : Type) where
  finalized_block_header : H
  babe_epoch_changes : EC
  babe_finalized_block_weight : Nat
  grandpa_authority_set : AS

/-- `LightSyncState::to_serializable`: encode the three typed fields into
binary blobs, copy the block weight unchanged. -/
def LightSyncState.to_serializable (cH : Codec H) (cE : Codec EC) (cA : Codec AS)
    (s : LightSyncState H EC AS) : SerializableLightSyncState :=
  { finalized_block_header := cH.encode s.finalized_block_header
    babe_epoch_changes := cE.encode s.babe_epoch_changes
    babe_finalized_block_weight := s.babe_finalized_block_weight
    grandpa_authority_set := cA.encode s.grandpa_authority_set }

/-- `LightSyncState::from_serializable`: decode each blob via
`Decode::decode(&mut &blob[..])` (cursor semantics: any bytes left in the
cursor after a successful decode are dropped), propagating the first decode
error; the block weight is copied unchanged. -/
def LightSyncState.from_serializable (cH : Codec H) (cE : Codec EC) (cA : Codec AS)
    (s : SerializableLightSyncState) : Option (LightSyncState H EC AS) :=
  match cH.decode s.finalized_block_header with
  | none => none
  | some (h, _) =>
    match cE.decode s.babe_epoch_changes with
    | none => none
    | some (e, _) =>
      match cA.decode s.grandpa_authority_set with
      | none => none
      | some (a, _) =>
        some { finalized_block_header := h
               babe_epoch_changes := e
               babe_finalized_block_weight := s.babe_finalized_block_weight
               grandpa_authority_set := a }

/-- The non-genesis chain metadata (`ClientSpec<E>`). The `consensus_engine`
field is the retained-but-ignored legacy field of type `()`; the `genesis`
field mirrors the `serde::de::IgnoredAny` member (the payload is required to
be present on deserialize but its value is discarded, and it is never
serialized). -/
structure ClientSpec (E : Type) where
  name : String
  id : String
  chain_type : ChainType
  boot_nodes : List String
  telemetry_endpoints : Option (List (String × Nat))
  protocol_id : Option String
  properties : Option (List (String × Json))
  extensions : E
  consensus_engine : Unit
  genesis : Unit
  light_sync_state : Option SerializableLightSyncState

/-- A type denoting empty extensions (`NoExtension = Option<()>`). -/
def NoExtension := Option Unit

/-- The deferred genesis handle (`enum GenesisSource<G>`). `Binary` holds the
whole chain-spec JSON document (the byte buffer, modelled at the JSON value
level); `File` holds the path; `Factory` the shared constructor; `Storage`
the precomputed snapshot. -/
inductive GenesisSource (G : Type) where
  | File (path : String) : GenesisSource G
  | Binary (doc : Json) : GenesisSource G
  | Factory (f : Unit → G) : GenesisSource G
  | Storage (s : Storage) : GenesisSource G

/-- A chain configuration (`ChainSpec<G, E>`): the client metadata plus the
genesis source. -/
structure ChainSpec (G E : Type) where
  client_spec : ClientSpec E
  genesis : GenesisSource G

/-- Deserialize a JSON string. -/
def parseJsonString : Json → Option String
  | .str s => some s
  | _ => none

/-- Deserialize `ChainType` (external type; modelled from the spec: an
enumerated type with a custom variant, serialized externally tagged). -/
def parseChainType : Json → Option ChainType
  | .str "Development" => some .Development
  | .str "Local" => some .Local
  | .str "Live" => some .Live
  | .obj [("Custom", .str s)] => some (.Custom s)
  | _ => none

/-- Deserialize the boot-node list. `MultiaddrWithPeerId` is an external type
(network address parsing is out of scope); modelled from the spec as the
multiaddress/peer-id strings themselves. -/
def parseBootNodes : Json → Option (List String)
  | .arr xs => xs.mapM parseJsonString
  | _ => none

/-- Deserialize telemetry endpoints (external `TelemetryEndpoints`; modelled
from the spec as a sequence of endpoint/verbosity pairs, the verbosity a
byte-sized number). -/
def parseTelemetry : Json → Option (List (String × Nat))
  | .arr xs => xs.mapM (fun x =>
      match x with
      | .arr [.str s, .num n] => if 0 ≤ n ∧ n < 256 then some (s, n.toNat) else none
      | _ => none)
  | _ => none

/-- Deserialize the free-form `Properties` object (`serde_json::Map`). -/
def parseProperties : Json → Option (List (String × Json))
  | .obj fs => some fs
  | _ => none

/-- Deserialize a `StorageData` value: a `0x`-prefixed hex string. -/
def parseStorageData : Json → Option Bytes
  | .str s => parseHexBytes s
  | _ => none

/-- Deserialize `SerializableLightSyncState`: strict schema
(`deny_unknown_fields`, no flattened member here, so it is effective), all
four camel-cased fields required, the weight a `u32`. -/
def parseLightSyncState : Json → Option SerializableLightSyncState
  | .obj fs =>
    if fs.all (fun f => f.1 == "finalizedBlockHeader" || f.1 == "babeEpochChanges" ||
        f.1 == "babeFinalizedBlockWeight" || f.1 == "grandpaAuthoritySet") then do
      let h ← fs.lookup "finalizedBlockHeader" >>= parseStorageData
      let e ← fs.lookup "babeEpochChanges" >>= parseStorageData
      let w ← match fs.lookup "babeFinalizedBlockWeight" with
        | some (.num n) => if 0 ≤ n ∧ n < 4294967296 then some n.toNat else none
        | _ => none
      let a ← fs.lookup "grandpaAuthoritySet" >>= parseStorageData
      pure { finalized_block_header := h
             babe_epoch_changes := e
             babe_finalized_block_weight := w
             grandpa_authority_set := a }
    else none
  | _ => none

/-- Deserialize an `Option<T>` struct field with `serde` semantics: a missing
field and an explicit `null` both give `none`; any other value must parse. -/
def parseOptField (fs : List (String × Json)) (key : String)
    (p : Json → Option α) : Option (Option α) :=
  match fs.lookup key with
  | none => some none
  | some .null => some none
  | some v => (p v).map some

/-- Deserialize `ClientSpec<NoExtension>` from a chain-spec document,
following the `serde` derive semantics of the source struct: camel-cased
field names; `name`, `id` and `bootNodes` required; `chainType` defaulting to
`Live` when absent; the `Option` fields absent-or-null to `none`; the legacy
`consensusEngine` field of unit type required (deserializable only from
`null`); the `genesis` member is `serde::de::IgnoredAny` — it must be present
but its value is accepted unparsed. Because the struct has a
`#[serde(flatten)]` member (`extensions`), `#[serde(deny_unknown_fields)]`
is inert (a documented serde limitation): unrecognized keys are collected for
the flattened `extensions` deserializer, and for `NoExtension = Option<()>`
they are dropped. -/
def deserializeClientSpec : Json → Option (ClientSpec NoExtension)
  | .obj fs => do
    let name ← fs.lookup "name" >>= parseJsonString
    let id ← fs.lookup "id" >>= parseJsonString
    let ct ← match fs.lookup "chainType" with
      | none => some ChainType.Live
      | some v => parseChainType v
    let bn ← fs.lookup "bootNodes" >>= parseBootNodes
    let te ← parseOptField fs "telemetryEndpoints" parseTelemetry
    let pid ← parseOptField fs "protocolId" parseJsonString
    let props ← parseOptField fs "properties" parseProperties
    let ce ← match fs.lookup "consensusEngine" with
      | some .null => some ()
      | _ => none
    let ig ← match fs.lookup "genesis" with
      | some _ => some ()
      | none => none
    let lss ← parseOptField fs "lightSyncState" parseLightSyncState
    pure { name := name
           id := id
           chain_type := ct
           boot_nodes := bn
           telemetry_endpoints := te
           protocol_id := pid
           properties := props
           extensions := some ()
           consensus_engine := ce
           genesis := ig
           light_sync_state := lss }
  | _ => none

/-- Deserialize the raw genesis snapshot (`RawGenesis`): strict schema (no
flattened member, so `deny_unknown_fields` is effective), both camel-cased
fields required, every key and value a hex-encoded byte string. -/
def parseGenesisStorage : Json → Option (List (Bytes × Bytes))
  | .obj fs => fs.mapM (fun kv => do
      let kb ← parseHexBytes kv.1
      let vb ← parseStorageData kv.2
      pure (kb, vb))
  | _ => none

/-- Deserialize `RawGenesis` (see `parseGenesisStorage`). -/
def parseRawGenesis : Json → Option RawGenesis
  | .obj fs =>
    if fs.all (fun f => f.1 == "top" || f.1 == "childrenDefault") then do
      let topJ ← fs.lookup "top"
      let cdJ ← fs.lookup "childrenDefault"
      let top ← parseGenesisStorage topJ
      let cd ← match cdJ with
        | .obj cfs => cfs.mapM (fun kv => do
            let kb ← parseHexBytes kv.1
            let m ← parseGenesisStorage kv.2
            pure (kb, m))
        | _ => none
      pure { top := top, children_default := cd }
    else none
  | _ => none

/-- Deserialize the externally tagged `enum Genesis<G>`: an object with a
single variant key, `runtime` (content handed to the external deserializer of
`G`) or `raw`. -/
def parseGenesis (degG : Json → Option G) : Json → Option (Genesis G)
  | .obj [(k, v)] =>
    if k = "runtime" then (degG v).map .Runtime
    else if k = "raw" then (parseRawGenesis v).map .Raw
    else none
  | _ => none

/-- Deserialize the local `GenesisContainer` helper struct: any object with a
`genesis` field (no strict-schema attribute on it; other fields ignored). -/
def parseGenesisContainer (degG : Json → Option G) : Json → Option (Genesis G)
  | .obj fs => fs.lookup "genesis" >>= parseGenesis degG
  | _ => none

/-- `GenesisSource::resolve`. `degG` is the external `Deserialize` capability
of `G`, and `fileRead` models the file system (`File::open` plus read; `none`
is an open failure). -/
def GenesisSource.resolve (degG : Json → Option G) (fileRead : String → Option Json) :
    GenesisSource G → Except String (Genesis G)
  | .File path =>
    match fileRead path with
    | none => .error "Error opening spec file"
    | some doc =>
      match parseGenesisContainer degG doc with
      | none => .error "Error parsing spec file"
      | some g => .ok g
  | .Binary doc =>
    match parseGenesisContainer degG doc with
    | none => .error "Error parsing embedded file"
    | some g => .ok g
  | .Factory f => .ok (.Runtime (f ()))
  | .Storage storage =>
    .ok (.Raw
      { top := storage.top.map (fun kv => (kv.1, kv.2))
        children_default := storage.children_default.map (fun kc =>
          (kc.1, kc.2.data.map (fun kv => (kv.1, kv.2)))) })

/-- `<ChainSpec as BuildStorage>::build_storage`. `bsG` is the external
storage-building capability of the runtime genesis type `G`. -/
def ChainSpec.build_storage (degG : Json → Option G) (fileRead : String → Option Json)
    (bsG : G → Except String Storage) (spec : ChainSpec G E) : Except String Storage :=
  match spec.genesis.resolve degG fileRead with
  | .error e => .error e
  | .ok (.Runtime gc) => bsG gc
  | .ok (.Raw r) =>
    .ok { top := r.top.map (fun kv => (kv.1, kv.2))
          children_default := r.children_default.map (fun sc =>
            (sc.1, { data := sc.2.map (fun kv => (kv.1, kv.2))
                     child_info := ChildInfo.new_default sc.1 })) }

/-- `<ChainSpec as BuildStorage>::assimilate_storage`: always the fixed error;
the `&mut Storage` argument is never touched, so the state-passing translation
returns it unchanged. -/
def ChainSpec.assimilate_storage (_spec : ChainSpec G E) (storage : Storage) :
    Except String Unit × Storage :=
  (.error "`assimilate_storage` not implemented for `ChainSpec`.", storage)

/-- `ChainSpec::from_json_bytes`: parse the `ClientSpec` metadata eagerly and
keep the document itself as the un-parsed `Binary` genesis source. -/
def ChainSpec.from_json_bytes (doc : Json) : Except String (ChainSpec G NoExtension) :=
  match deserializeClientSpec doc with
  | none => .error "Error parsing spec file"
  | some cs => .ok { client_spec := cs, genesis := .Binary doc }

/-- `ChainSpec::from_json_file`: open and parse the `ClientSpec` metadata
eagerly and keep the path as the un-parsed `File` genesis source. -/
def ChainSpec.from_json_file (fileRead : String → Option Json) (path : String) :
    Except String (ChainSpec G NoExtension) :=
  match fileRead path with
  | none => .error "Error opening spec file"
  | some doc =>
    match deserializeClientSpec doc with
    | none => .error "Error parsing spec file"
    | some cs => .ok { client_spec := cs, genesis := .File path }

/-- `ChainSpec::name`. -/
def ChainSpec.name (spec : ChainSpec G E) : String := spec.client_spec.name

/-- `ChainSpec::id`. -/
def ChainSpec.id (spec : ChainSpec G E) : String := spec.client_spec.id

/-- `ChainSpec::chain_type`. -/
def ChainSpec.chain_type (spec : ChainSpec G E) : ChainType := spec.client_spec.chain_type

/-- `ChainSpec::boot_nodes`. -/
def ChainSpec.boot_nodes (spec : ChainSpec G E) : List String := spec.client_spec.boot_nodes

/-- `ChainSpec::telemetry_endpoints`. -/
def ChainSpec.telemetry_endpoints (spec : ChainSpec G E) : Option (List (String × Nat)) :=
  spec.client_spec.telemetry_endpoints

/-- `ChainSpec::protocol_id`. -/
def ChainSpec.protocol_id (spec : ChainSpec G E) : Option String := spec.client_spec.protocol_id

/-- `ChainSpec::properties`: the stored properties, or the empty JSON object
when not defined in the config. -/
def ChainSpec.properties (spec : ChainSpec G E) : List (String × Json) :=
  spec.client_spec.properties.getD []

/-- `ChainSpec::extensions`. -/
def ChainSpec.extensions (spec : ChainSpec G E) : E := spec.client_spec.extensions

/-- `ChainSpec::get_light_sync_state`. -/
def ChainSpec.get_light_sync_state (spec : ChainSpec G E) : Option SerializableLightSyncState :=
  spec.client_spec.light_sync_state

/-- `<ChainSpec as crate::ChainSpec>::set_storage`: replace the genesis source
by the precomputed snapshot. -/
def ChainSpec.set_storage (spec : ChainSpec G E) (storage : Storage) : ChainSpec G E :=
  { spec with genesis := .Storage storage }

/-- Serialize a genesis key/value mapping: hex-encoded keys and values. -/
def serializeGenesisStorage (m : List (Bytes × Bytes)) : Json :=
  .obj (m.map (fun kv => (hexEncode kv.1, .str (hexEncode kv.2))))

/-- Serialize `RawGenesis` (camel-cased fields). -/
def serializeRawGenesis (r : RawGenesis) : Json :=
  .obj [("top", serializeGenesisStorage r.top),
        ("childrenDefault",
          .obj (r.children_default.map (fun kc =>
            (hexEncode kc.1, serializeGenesisStorage kc.2))))]

/-- Serialize the externally tagged `enum Genesis<G>`; `serG` is the external
`Serialize` capability of `G`. -/
def serializeGenesis (serG : G → Json) : Genesis G → Json
  | .Runtime g => .obj [("runtime", serG g)]
  | .Raw r => .obj [("raw", serializeRawGenesis r)]

/-- Serialize `ChainType` (external type, mirror of `parseChainType`). -/
def serializeChainType : ChainType → Json
  | .Development => .str "Development"
  | .Local => .str "Local"
  | .Live => .str "Live"
  | .Custom s => .obj [("Custom", .str s)]

/-- Serialize an `Option` field (`None` as `null`, no skip attribute). -/
def serializeOptField (f : α → Json) : Option α → Json
  | none => .null
  | some x => f x

/-- Serialize telemetry endpoints (mirror of `parseTelemetry`). -/
def serializeTelemetry (tes : List (String × Nat)) : Json :=
  .arr (tes.map (fun te => .arr [.str te.1, .num (Int.ofNat te.2)]))

/-- Serialize `SerializableLightSyncState` (camel-cased fields). -/
def serializeLightSyncState (s : SerializableLightSyncState) : Json :=
  .obj [("finalizedBlockHeader", .str (hexEncode s.finalized_block_header)),
        ("babeEpochChanges", .str (hexEncode s.babe_epoch_changes)),
        ("babeFinalizedBlockWeight", .num (Int.ofNat s.babe_finalized_block_weight)),
        ("grandpaAuthoritySet", .str (hexEncode s.grandpa_authority_set))]

/-- Serialize `ClientSpec<E>` as the flat field list it contributes to the
chain-spec document: every member in camel case except the skipped
`genesis` member (`#[serde(skip_serializing)]`), the legacy unit
`consensusEngine` as `null`, and the flattened extension fields appended
(`serE` is the external `Serialize` capability of `E`). -/
def serializeClientSpec (serE : E → List (String × Json)) (cs : ClientSpec E) :
    List (String × Json) :=
  [("name", .str cs.name),
   ("id", .str cs.id),
   ("chainType", serializeChainType cs.chain_type),
   ("bootNodes", .arr (cs.boot_nodes.map .str)),
   ("telemetryEndpoints", serializeOptField serializeTelemetry cs.telemetry_endpoints),
   ("protocolId", serializeOptField .str cs.protocol_id),
   ("properties", serializeOptField .obj cs.properties),
   ("consensusEngine", .null),
   ("lightSyncState", serializeOptField serializeLightSyncState cs.light_sync_state)]
  ++ serE cs.extensions

/-- The `JsonContainer<G, E>` helper struct: the flattened client spec next to
the genesis payload. -/
structure JsonContainer (G E : Type) where
  client_spec : ClientSpec E
  genesis : Genesis G

/-- `ChainSpec::json_container`: resolve the genesis; when `raw` is requested
and the resolved genesis is `Runtime`, invoke the external storage builder
and flatten its output into `RawGenesis` (top entries plus each child
partition's data, the child-info metadata discarded); otherwise keep the
resolved genesis unchanged. -/
def ChainSpec.json_container (degG : Json → Option G) (fileRead : String → Option Json)
    (bsG : G → Except String Storage) (spec : ChainSpec G E) (raw : Bool) :
    Except String (JsonContainer G E) :=
  match spec.genesis.resolve degG fileRead with
  | .error e => .error e
  | .ok resolved =>
    match raw, resolved with
    | true, .Runtime g =>
      match bsG g with
      | .error e => .error e
      | .ok storage =>
        .ok { client_spec := spec.client_spec
              genesis := .Raw
                { top := storage.top.map (fun kv => (kv.1, kv.2))
                  children_default := storage.children_default.map (fun sc =>
                    (sc.1, sc.2.data.map (fun kv => (kv.1, kv.2)))) } }
    | _, g => .ok { client_spec := spec.client_spec, genesis := g }

/-- `ChainSpec::as_json_value` (the value-typed form of `as_json`): the
serialized container, client-spec fields flattened beside the `genesis`
field. -/
def ChainSpec.as_json_value (degG : Json → Option G) (fileRead : String → Option Json)
    (bsG : G → Except String Storage) (serG : G → Json)
    (serE : E → List (String × Json)) (spec : ChainSpec G E) (raw : Bool) :
    Except String Json :=
  match spec.json_container degG fileRead bsG raw with
  | .error e => .error e
  | .ok c =>
    .ok (.obj (serializeClientSpec serE c.client_spec ++
               [("genesis", serializeGenesis serG c.genesis)]))

/-- Modelled from the spec: the flattening of a `Storage` value into a
`RawGenesis` — the top entries kept exactly, and each child partition reduced
to its key and data entries, independent of the child-info metadata. Used as
the specification-side description against which `json_container`'s inline
conversion is compared. -/
def flattenStorageSpec (st : Storage) : RawGenesis :=
  { top := st.top
    children_default := st.children_default.map (fun sc => (sc.1, sc.2.data)) }

/-- Entry-wise eta for association lists: copying a map entry by entry is the
identity. -/
theorem list_map_pair_eta (l : List (α × β)) : l.map (fun kv => (kv.1, kv.2)) = l := by
  induction l with
  | nil => rfl
  | cons hd tl ih => simp [ih]

/-- A trivial deserializer for an opaque unit genesis type, standing in for
the external `Deserialize` capability in concrete instantiations. -/
def degUnit : Json → Option Unit := fun _ => some ()

/-- An empty file system for concrete instantiations. -/
def fsNone : String → Option Json := fun _ => none

/-- A storage builder for the unit genesis type that is never reached in the
concrete instantiations that use it. -/
def bsUnitUnused : Unit → Except String Storage := fun _ => .error "unused"

/-- A trivial serializer for the opaque unit genesis type. -/
def serUnit : Unit → Json := fun _ => .null

/-- The serializer of `NoExtension` extensions: flattening `Option<()>`
contributes no fields. -/
def serNoExt : NoExtension → List (String × Json) := fun _ => []

/-- A small concrete client spec used by the closed witnesses. -/
def witnessClientSpec : ClientSpec NoExtension :=
  { name := "Witness"
    id := "witness"
    chain_type := .Live
    boot_nodes := []
    telemetry_endpoints := none
    protocol_id := none
    properties := none
    extensions := some ()
    consensus_engine := ()
    genesis := ()
    light_sync_state := none }

/-- The exact JSON document of the concrete scenario of claim C1. -/
def c1Doc : Json :=
  .obj [("name", .str "Test"),
        ("id", .str "test"),
        ("bootNodes", .arr []),
        ("properties", .obj []),
        ("genesis", .obj [("raw", .obj [("top", .obj [("0x1234", .str "0xabcd")]),
                                        ("childrenDefault", .obj [])])])]

/-- The C1 scenario document amended with the required legacy field
`"consensusEngine": null`. -/
def c1DocFixed : Json :=
  .obj [("name", .str "Test"),
        ("id", .str "test"),
        ("bootNodes", .arr []),
        ("properties", .obj []),
        ("consensusEngine", .null),
        ("genesis", .obj [("raw", .obj [("top", .obj [("0x1234", .str "0xabcd")]),
                                        ("childrenDefault", .obj [])])])]

/-- The chain spec obtained by loading the amended C1 document. -/
def c1Spec : ChainSpec Unit NoExtension :=
  { client_spec :=
      { name := "Test"
        id := "test"
        chain_type := .Live
        boot_nodes := []
        telemetry_endpoints := none
        protocol_id := none
        properties := some []
        extensions := some ()
        consensus_engine := ()
        genesis := ()
        light_sync_state := none }
    genesis := .Binary c1DocFixed }

/-- C1, counterexample: loading the exact JSON document of the claim fails,
because the legacy `consensusEngine` member of `ClientSpec` has unit type and
no serde `default` or `Option` marker, so serde requires the field to be
present (`missing field` error); nothing can then be asked of the spec. -/
theorem chainSpec_c1_counterexample :
    ChainSpec.from_json_bytes (G := Unit) c1Doc = .error "Error parsing spec file" := rfl

/-- C1, amended: with the required legacy field `"consensusEngine": null`
added to the document, loading succeeds and yields exactly `c1Spec`;
`properties()` is the empty JSON object, `id()` is `"test"`, and
`build_storage()` returns the storage whose top mapping is exactly
`0x1234 ↦ 0xabcd` with no child partitions. -/
theorem chainSpec_c1_amended_scenario :
    ChainSpec.from_json_bytes (G := Unit) c1DocFixed = .ok c1Spec
    ∧ c1Spec.properties = []
    ∧ c1Spec.id = "test"
    ∧ c1Spec.build_storage degUnit fsNone bsUnitUnused =
        .ok { top := [([0x12, 0x34], [0xab, 0xcd])], children_default := [] } :=
  ⟨rfl, rfl, rfl, by rfl⟩

/-- A document with all schema fields required by `ClientSpec` plus an
unrecognized top-level field `someUnknownField`. -/
def c2Doc : Json :=
  .obj [("name", .str "Test"),
        ("id", .str "test"),
        ("bootNodes", .arr []),
        ("consensusEngine", .null),
        ("genesis", .obj [("raw", .obj [("top", .obj []), ("childrenDefault", .obj [])])]),
        ("someUnknownField", .num 1)]

/-- The chain spec obtained by loading `c2Doc`: the unknown field is dropped
into the flattened extensions. -/
def c2Spec : ChainSpec Unit NoExtension :=
  { client_spec :=
      { name := "Test"
        id := "test"
        chain_type := .Live
        boot_nodes := []
        telemetry_endpoints := none
        protocol_id := none
        properties := none
        extensions := some ()
        consensus_engine := ()
        genesis := ()
        light_sync_state := none }
    genesis := .Binary c2Doc }

/-- C2: a document with an unrecognized top-level field parses successfully —
`#[serde(deny_unknown_fields)]` on `ClientSpec` is inert because the struct
has a `#[serde(flatten)]` member, so the unknown key is routed to the
flattened `extensions` deserializer and dropped, contradicting the claimed
strict schema (the missing-required-field half of the claim does hold). -/
theorem chainSpec_c2_unknown_field_accepted :
    ChainSpec.from_json_bytes (G := Unit) c2Doc = .ok c2Spec := rfl

/-- C7: for every chain spec and every input storage, `assimilate_storage`
fails with the one fixed "not implemented" message and leaves the passed-in
storage exactly unchanged. -/
theorem chainSpec_c7_assimilate_storage_fixed_error (G E : Type)
    (spec : ChainSpec G E) (s : Storage) :
    spec.assimilate_storage s =
      (.error "`assimilate_storage` not implemented for `ChainSpec`.", s) := rfl

/-- C10: `set_storage` replaces the genesis source by
`GenesisSource::Storage` and leaves every `ClientSpec` accessor unchanged:
name, id, chain type, boot nodes, telemetry endpoints, protocol id,
properties, extensions and the light-sync state. -/
theorem chainSpec_c10_set_storage_frame (G E : Type)
    (spec : ChainSpec G E) (s : Storage) :
    (spec.set_storage s).genesis = .Storage s
    ∧ (spec.set_storage s).name = spec.name
    ∧ (spec.set_storage s).id = spec.id
    ∧ (spec.set_storage s).chain_type = spec.chain_type
    ∧ (spec.set_storage s).boot_nodes = spec.boot_nodes
    ∧ (spec.set_storage s).telemetry_endpoints = spec.telemetry_endpoints
    ∧ (spec.set_storage s).protocol_id = spec.protocol_id
    ∧ (spec.set_storage s).properties = spec.properties
    ∧ (spec.set_storage s).extensions = spec.extensions
    ∧ (spec.set_storage s).get_light_sync_state = spec.get_light_sync_state :=
  ⟨rfl, rfl, rfl, rfl, rfl, rfl, rfl, rfl, rfl, rfl⟩

/-- A concrete lawful codec over `Nat`: one byte of payload. `decode` reads
exactly one byte from the cursor and leaves the rest, so it fails on an empty
input and ignores trailing bytes — the observable shape shared by every
SCALE decoder. -/
def natCodec : Codec Nat :=
  { encode := fun n => [n]
    decode := fun bs =>
      match bs with
      | [] => none
      | b :: r => some (b, r)
    decode_encode := fun _ _ => rfl }

/-- C3, counterexample: a serializable state whose header blob is a valid
encoding followed by a trailing byte is decoded successfully by
`from_serializable` — the code uses codec's cursor-based `decode`, which
leaves trailing bytes in the cursor instead of rejecting them, so decoding
does not consume the blob exactly as claimed. -/
theorem lightSync_c3_trailing_bytes_counterexample :
    natCodec.encode 5 ++ [9] = [5, 9]
    ∧ LightSyncState.from_serializable natCodec natCodec natCodec
        { finalized_block_header := [5, 9]
          babe_epoch_changes := [7]
          babe_finalized_block_weight := 3
          grandpa_authority_set := [8] } =
      some { finalized_block_header := 5
             babe_epoch_changes := 7
             babe_finalized_block_weight := 3
             grandpa_authority_set := 8 } :=
  ⟨rfl, rfl⟩

/-- C3, amended: `from_serializable` fails exactly when decoding one of the
three blobs fails (malformed or insufficient bytes); decoding reads a prefix
of each blob, and trailing bytes after a valid encoding are ignored rather
than rejected. -/
theorem lightSync_c3_decode_failure_amended (H EC AS : Type)
    (cH : Codec H) (cE : Codec EC) (cA : Codec AS) (s : SerializableLightSyncState) :
    LightSyncState.from_serializable cH cE cA s = none ↔
      cH.decode s.finalized_block_header = none
      ∨ cE.decode s.babe_epoch_changes = none
      ∨ cA.decode s.grandpa_authority_set = none := by
  unfold LightSyncState.from_serializable
  rcases hH : cH.decode s.finalized_block_header with _ | ⟨h, r1⟩ <;>
    rcases hE : cE.decode s.babe_epoch_changes with _ | ⟨e, r2⟩ <;>
      rcases hA : cA.decode s.grandpa_authority_set with _ | ⟨a, r3⟩ <;>
        simp

/-- C4, counterexample: corrupting one byte of a blob produced by
`to_serializable` need not make `from_serializable` fail — here the single
byte of the header blob of the state `(0, 1, 2, 3)` is corrupted from `0` to
`9` and decoding succeeds with the different state `(9, 1, 2, 3)`. -/
theorem lightSync_c4_corruption_counterexample :
    LightSyncState.to_serializable natCodec natCodec natCodec
        { finalized_block_header := 0
          babe_epoch_changes := 1
          babe_finalized_block_weight := 2
          grandpa_authority_set := 3 } =
      { finalized_block_header := [0]
        babe_epoch_changes := [1]
        babe_finalized_block_weight := 2
        grandpa_authority_set := [3] }
    ∧ LightSyncState.from_serializable natCodec natCodec natCodec
        { finalized_block_header := [9]
          babe_epoch_changes := [1]
          babe_finalized_block_weight := 2
          grandpa_authority_set := [3] } =
      some { finalized_block_header := 9
             babe_epoch_changes := 1
             babe_finalized_block_weight := 2
             grandpa_authority_set := 3 }
    ∧ (9 : Nat) ≠ 0 :=
  ⟨rfl, rfl, by decide⟩

/-- C4, amended: for every lawful codec triple, `to_serializable` followed by
`from_serializable` succeeds and returns a state whose four fields equal the
originals; no guarantee is made that a corrupted blob fails to decode. -/
theorem lightSync_c4_roundtrip_amended (H EC AS : Type)
    (cH : Codec H) (cE : Codec EC) (cA : Codec AS) (s : LightSyncState H EC AS) :
    LightSyncState.from_serializable cH cE cA (s.to_serializable cH cE cA) = some s := by
  cases s with
  | mk fbh bec w gas =>
    have h1 := cH.decode_encode fbh []
    have h2 := cE.decode_encode bec []
    have h3 := cA.decode_encode gas []
    rw [List.append_nil] at h1 h2 h3
    simp [LightSyncState.to_serializable, LightSyncState.from_serializable, h1, h2, h3]

/-- Entry-wise eta under child-partition flattening: copying each partition's
data entry by entry is the same as taking the data unchanged. -/
theorem list_map_child_flatten_eta (l : List (Bytes × StorageChild)) :
    l.map (fun sc => (sc.1, sc.2.data.map (fun kv => (kv.1, kv.2)))) =
      l.map (fun sc => (sc.1, sc.2.data)) := by
  induction l with
  | nil => rfl
  | cons hd tl ih => simp [list_map_pair_eta, ih]

/-- C5: for a chain spec whose genesis source resolves to `Genesis::Raw`, the
genesis payload of `as_json(true)` equals the genesis payload of
`as_json(false)` — the `raw` flag has no effect on an already-raw genesis. -/
theorem chainSpec_c5_raw_idempotence (G E : Type) (degG : Json → Option G)
    (fileRead : String → Option Json) (bsG : G → Except String Storage)
    (serG : G → Json) (serE : E → List (String × Json))
    (spec : ChainSpec G E) (r : RawGenesis)
    (h : spec.genesis.resolve degG fileRead = .ok (.Raw r)) :
    ∃ j1 j2, spec.as_json_value degG fileRead bsG serG serE true = .ok j1
      ∧ spec.as_json_value degG fileRead bsG serG serE false = .ok j2
      ∧ j1.getField "genesis" = j2.getField "genesis" := by
  have e1 : spec.as_json_value degG fileRead bsG serG serE true =
      .ok (.obj (serializeClientSpec serE spec.client_spec ++
           [("genesis", serializeGenesis serG (.Raw r))])) := by
    unfold ChainSpec.as_json_value ChainSpec.json_container
    rw [h]
  have e2 : spec.as_json_value degG fileRead bsG serG serE false =
      .ok (.obj (serializeClientSpec serE spec.client_spec ++
           [("genesis", serializeGenesis serG (.Raw r))])) := by
    unfold ChainSpec.as_json_value ChainSpec.json_container
    rw [h]
  exact ⟨_, _, e1, e2, rfl⟩

/-- A concrete spec whose genesis source resolves to raw, for the C5
witness. -/
def c5WitnessSpec : ChainSpec Unit NoExtension :=
  { client_spec := witnessClientSpec
    genesis := .Storage { top := [], children_default := [] } }

/-- C5, witness: the raw-idempotence theorem applied to a concrete spec with
a `Storage` genesis source. -/
theorem chainSpec_c5_raw_idempotence_witness :
    ∃ j1 j2, c5WitnessSpec.as_json_value degUnit fsNone bsUnitUnused serUnit serNoExt true = .ok j1
      ∧ c5WitnessSpec.as_json_value degUnit fsNone bsUnitUnused serUnit serNoExt false = .ok j2
      ∧ j1.getField "genesis" = j2.getField "genesis" :=
  chainSpec_c5_raw_idempotence Unit NoExtension degUnit fsNone bsUnitUnused serUnit serNoExt
    c5WitnessSpec { top := [], children_default := [] } rfl

/-- C6: building a chain spec around `GenesisSource::Storage(s)` and calling
`build_storage()` succeeds and returns the original snapshot: the top mapping
key-for-key and value-for-value, and every child partition's data key-for-key
and value-for-value (the child-info of each rebuilt partition is re-derived
from its key). -/
theorem chainSpec_c6_storage_roundtrip (G E : Type) (degG : Json → Option G)
    (fileRead : String → Option Json) (bsG : G → Except String Storage)
    (cs : ClientSpec E) (s : Storage) :
    ∃ st, ChainSpec.build_storage degG fileRead bsG
        { client_spec := cs, genesis := .Storage s } = .ok st
      ∧ st.top = s.top
      ∧ st.children_default.map (fun p => (p.1, p.2.data)) =
          s.children_default.map (fun p => (p.1, p.2.data)) := by
  obtain ⟨stop, schild⟩ := s
  refine ⟨_, rfl, ?_, ?_⟩
  · show (stop.map (fun kv => (kv.1, kv.2))).map (fun kv => (kv.1, kv.2)) = stop
    rw [list_map_pair_eta, list_map_pair_eta]
  · show ((schild.map (fun kc => (kc.1, kc.2.data.map (fun kv => (kv.1, kv.2))))).map
        (fun sc => (sc.1, { data := sc.2.map (fun kv => (kv.1, kv.2))
                            child_info := ChildInfo.new_default sc.1 : StorageChild }))).map
          (fun p => (p.1, p.2.data)) =
        schild.map (fun p => (p.1, p.2.data))
    simp [list_map_pair_eta]

/-- C8: for a chain spec whose genesis source resolves to
`Genesis::Runtime(g)` and whose external storage builder succeeds,
`build_storage()` returns the builder's storage unmodified, and the genesis
payload of the raw JSON container is exactly the spec-described flattening of
that storage (top entries and each child partition's data, the child-info
metadata discarded). -/
theorem chainSpec_c8_raw_conversion_consistency (G E : Type) (degG : Json → Option G)
    (fileRead : String → Option Json) (bsG : G → Except String Storage)
    (spec : ChainSpec G E) (g : G) (st : Storage)
    (h1 : spec.genesis.resolve degG fileRead = .ok (.Runtime g))
    (h2 : bsG g = .ok st) :
    ChainSpec.build_storage degG fileRead bsG spec = .ok st
    ∧ spec.json_container degG fileRead bsG true =
        .ok { client_spec := spec.client_spec, genesis := .Raw (flattenStorageSpec st) } := by
  constructor
  · unfold ChainSpec.build_storage
    rw [h1]
    exact h2
  · unfold ChainSpec.json_container
    rw [h1]
    simp only [h2]
    simp only [flattenStorageSpec, list_map_pair_eta, list_map_child_flatten_eta]

/-- The concrete storage returned by the C8 witness's storage builder. -/
def c8Storage : Storage :=
  { top := [([1], [2])]
    children_default := [([3], { data := [([4], [5])], child_info := [3] })] }

/-- A storage builder always returning `c8Storage`. -/
def bsC8 : Unit → Except String Storage := fun _ => .ok c8Storage

/-- A concrete spec with a `Factory` genesis source, for the C8 witness. -/
def c8WitnessSpec : ChainSpec Unit NoExtension :=
  { client_spec := witnessClientSpec
    genesis := .Factory (fun _ => ()) }

/-- C8, witness: the raw-conversion theorem applied to a concrete spec with a
factory genesis source and a concrete storage builder. -/
theorem chainSpec_c8_raw_conversion_consistency_witness :
    ChainSpec.build_storage degUnit fsNone bsC8 c8WitnessSpec = .ok c8Storage
    ∧ c8WitnessSpec.json_container degUnit fsNone bsC8 true =
        .ok { client_spec := c8WitnessSpec.client_spec
              genesis := .Raw (flattenStorageSpec c8Storage) } :=
  chainSpec_c8_raw_conversion_consistency Unit NoExtension degUnit fsNone bsC8
    c8WitnessSpec () c8Storage rfl rfl

/-- C9: loading parses only the `ClientSpec` metadata eagerly: whenever the
metadata deserializes, `from_json_bytes` succeeds and stores the un-parsed
document as the `Binary` genesis source (and `from_json_file` the path as the
`File` source), independently of whether the genesis payload would deserialize
as `Genesis<G>` — that failure can only surface at `resolve` time. -/
theorem chainSpec_c9_lazy_genesis_load (G : Type) (doc : Json)
    (cs : ClientSpec NoExtension) (fileRead : String → Option Json) (path : String)
    (h : deserializeClientSpec doc = some cs)
    (hf : fileRead path = some doc) :
    ChainSpec.from_json_bytes (G := G) doc =
      .ok { client_spec := cs, genesis := .Binary doc }
    ∧ ChainSpec.from_json_file (G := G) fileRead path =
      .ok { client_spec := cs, genesis := .File path } := by
  constructor
  · unfold ChainSpec.from_json_bytes
    rw [h]
  · unfold ChainSpec.from_json_file
    rw [hf]
    simp only [h]

/-- A document whose metadata is well-formed but whose genesis payload is not
a valid `Genesis<G>` (its single variant key is neither `runtime` nor
`raw`). -/
def c9Doc : Json :=
  .obj [("name", .str "Test"),
        ("id", .str "test"),
        ("bootNodes", .arr []),
        ("consensusEngine", .null),
        ("genesis", .obj [("bogus", .obj [])])]

/-- The client spec parsed from `c9Doc`. -/
def c9ClientSpec : ClientSpec NoExtension :=
  { name := "Test"
    id := "test"
    chain_type := .Live
    boot_nodes := []
    telemetry_endpoints := none
    protocol_id := none
    properties := none
    extensions := some ()
    consensus_engine := ()
    genesis := ()
    light_sync_state := none }

/-- A file system holding `c9Doc` at `spec.json`. -/
def c9Fs : String → Option Json := fun p => if p = "spec.json" then some c9Doc else none

/-- C9, witness: the lazy-load theorem applied to a concrete document whose
genesis payload is invalid as `Genesis<G>`; loading succeeds from bytes and
from file, and resolving the stored `Binary` source is what fails. -/
theorem chainSpec_c9_lazy_genesis_load_witness :
    (ChainSpec.from_json_bytes (G := Unit) c9Doc =
        .ok { client_spec := c9ClientSpec, genesis := .Binary c9Doc }
     ∧ ChainSpec.from_json_file (G := Unit) c9Fs "spec.json" =
        .ok { client_spec := c9ClientSpec, genesis := .File "spec.json" })
    ∧ (GenesisSource.Binary (G := Unit) c9Doc).resolve degUnit c9Fs =
        .error "Error parsing embedded file" :=
  ⟨chainSpec_c9_lazy_genesis_load Unit c9Doc c9ClientSpec c9Fs "spec.json" rfl rfl, rfl⟩






